import Mathlib

/-!
Verification of the password validation / generation / recommendation module
in backend/utils/ai_recommender.py of the Password-Health-Tracker repository.

Python strings are modelled as Lean lists of characters (Python len counts
code points, as does List.length).  Python ints are modelled as Int where the
source can produce or compare negative values, and as Nat where the source
guarantees non-negativity.  Code that can raise returns Except PyErr.
-/

/-- Errors a Python call can raise.  typeError models a TypeError raised by
the interpreter, for example on a call with an unexpected keyword argument. -/
inductive PyErr where
  | typeError (msg : String)
  | exception (msg : String)
deriving DecidableEq, Repr

/-- Models the Python builtin test c.isupper() on a single character c (the
source only applies it characterwise, inside any(...)).  Exact for every code
point up to U+00FF: the uppercase characters there are A-Z (65-90),
U+00C0-U+00D6 and U+00D8-U+00DE.  Code points above U+00FF are modelled as
uncased, which is accurate for every non-Latin-1 character occurring in this
development (such as U+20AC, the euro sign). -/
def pyIsUpper (c : Char) : Bool :=
  (65 ≤ c.toNat && c.toNat ≤ 90)
    || (192 ≤ c.toNat && c.toNat ≤ 214)
    || (216 ≤ c.toNat && c.toNat ≤ 222)

/-- Models the Python builtin test c.islower() on a single character.  Exact
for every code point up to U+00FF: the lowercase characters there are a-z
(97-122), U+00AA, U+00B5, U+00BA, U+00DF-U+00F6 and U+00F8-U+00FF.  Code
points above U+00FF are modelled as uncased (accurate for every non-Latin-1
character occurring in this development). -/
def pyIsLower (c : Char) : Bool :=
  (97 ≤ c.toNat && c.toNat ≤ 122)
    || c.toNat == 170 || c.toNat == 181 || c.toNat == 186
    || (223 ≤ c.toNat && c.toNat ≤ 246)
    || (248 ≤ c.toNat && c.toNat ≤ 255)

/-- Models the Python builtin test c.isdigit() on a single character.  Exact
for every code point up to U+00FF: the digit characters there are 0-9 (48-57)
and the superscripts U+00B2, U+00B3, U+00B9.  Code points above U+00FF are
modelled as non-digits (accurate for every non-Latin-1 character occurring in
this development). -/
def pyIsDigit (c : Char) : Bool :=
  (48 ≤ c.toNat && c.toNat ≤ 57)
    || c.toNat == 178 || c.toNat == 179 || c.toNat == 185

/-- The ASCII uppercase class A-Z as the specification words it (codes 65-90).
Spec-side definition, used to compare the code at hand with the claim that the
membership tests recognise exactly the ASCII classes. -/
def isAsciiUpper (c : Char) : Bool :=
  65 ≤ c.toNat && c.toNat ≤ 90

/-- The ASCII lowercase class a-z as the specification words it (codes
97-122).  Spec-side definition. -/
def isAsciiLower (c : Char) : Bool :=
  97 ≤ c.toNat && c.toNat ≤ 122

/-- The ASCII digit class 0-9 as the specification words it (codes 48-57).
Spec-side definition. -/
def isAsciiDigit (c : Char) : Bool :=
  48 ≤ c.toNat && c.toNat ≤ 57

/-- The ASCII alphanumeric class, spec-side. -/
def isAsciiAlnum (c : Char) : Bool :=
  isAsciiUpper c || isAsciiLower c || isAsciiDigit c

/-- The fixed special charset appearing (three times, as a string literal) in
the source: in the validator membership test, in the generator seeding and in
the generator fill pool.  The two brace characters of the literal are written
with escapes. -/
def specialChars : List Char := "!@#$%^&*()_+-=[]\x7b\x7d|;:,.<>?".toList

/-- Violation message for a too-short password; the source builds it with an
f-string interpolating min_length. -/
def msgLength (m : Int) : String :=
  "Password must be at least " ++ toString m ++ " characters"

/-- Violation message for a missing uppercase letter. -/
def msgUpper : String := "Password must contain at least one uppercase letter"

/-- Violation message for a missing lowercase letter. -/
def msgLower : String := "Password must contain at least one lowercase letter"

/-- Violation message for a missing digit. -/
def msgNumber : String := "Password must contain at least one number"

/-- Violation message for a missing special character. -/
def msgSpecial : String := "Password must contain at least one special character"

/-- Embedding of validate_password_meets_security_rules(password, min_length,
require_uppercase, require_lowercase, require_numbers, require_special).  The
source appends to a list errors through five independent if statements, in the
fixed order length, uppercase, lowercase, number, special, and returns the
pair (len(errors) == 0, errors).  The Python defaults are min_length=12 and
all four flags True; callers in this file always pass them explicitly. -/
def validate_password_meets_security_rules (password : List Char)
    (min_length : Int) (require_uppercase require_lowercase
    require_numbers require_special : Bool) : Bool × List String :=
  let errors : List String := []
  let errors := if (password.length : Int) < min_length
    then errors ++ [msgLength min_length] else errors
  let errors := if require_uppercase && !(password.any pyIsUpper)
    then errors ++ [msgUpper] else errors
  let errors := if require_lowercase && !(password.any pyIsLower)
    then errors ++ [msgLower] else errors
  let errors := if require_numbers && !(password.any pyIsDigit)
    then errors ++ [msgNumber] else errors
  let errors := if require_special && !(password.any (fun c => specialChars.contains c))
    then errors ++ [msgSpecial] else errors
  (errors.length == 0, errors)

/-- The violations list is the in-order concatenation of the five independent
checks: no short-circuiting, one entry per failed applicable rule. -/
theorem validate_errors_eq (password : List Char) (min_length : Int)
    (ru rl rn rs : Bool) :
    (validate_password_meets_security_rules password min_length ru rl rn rs).2 =
      (if (password.length : Int) < min_length then [msgLength min_length] else [])
      ++ (if ru && !(password.any pyIsUpper) then [msgUpper] else [])
      ++ (if rl && !(password.any pyIsLower) then [msgLower] else [])
      ++ (if rn && !(password.any pyIsDigit) then [msgNumber] else [])
      ++ (if rs && !(password.any (fun c => specialChars.contains c))
          then [msgSpecial] else []) := by
  simp only [validate_password_meets_security_rules]
  split_ifs <;> simp

/-- The first component of the validator result is the emptiness test of the
second component. -/
theorem validate_valid_eq_errors_empty (password : List Char) (min_length : Int)
    (ru rl rn rs : Bool) :
    ((validate_password_meets_security_rules password min_length ru rl rn rs).1 = true)
      ↔ (validate_password_meets_security_rules password min_length ru rl rn rs).2 = [] := by
  simp only [validate_password_meets_security_rules]
  simp [List.length_eq_zero]

/-- The validator accepts exactly the passwords that satisfy every enabled
rule. -/
theorem validate_valid_iff (password : List Char) (min_length : Int)
    (ru rl rn rs : Bool) :
    ((validate_password_meets_security_rules password min_length ru rl rn rs).1 = true)
      ↔ (min_length ≤ (password.length : Int)
        ∧ (ru = true → password.any pyIsUpper = true)
        ∧ (rl = true → password.any pyIsLower = true)
        ∧ (rn = true → password.any pyIsDigit = true)
        ∧ (rs = true → password.any (fun c => specialChars.contains c) = true)) := by
  rw [validate_valid_eq_errors_empty, validate_errors_eq]
  simp only [List.append_eq_nil, ite_eq_right_iff, List.cons_ne_nil, imp_false,
    Bool.and_eq_true, Bool.not_eq_true', not_and, not_lt, Bool.not_eq_false]
  tauto

/-- Models the Python builtin test c.isspace() on a single character, the
characterwise basis of str.strip().  Exact for every code point up to U+00FF:
tab through carriage return (9-13), the separators 28-31, the space, U+0085
and U+00A0.  Code points above U+00FF are modelled as non-space (accurate for
every non-Latin-1 character occurring in this development). -/
def pyIsSpace (c : Char) : Bool :=
  (9 ≤ c.toNat && c.toNat ≤ 13)
    || (28 ≤ c.toNat && c.toNat ≤ 32)
    || c.toNat == 133 || c.toNat == 160

/-- Models the Python method str.strip() with no argument: remove leading and
trailing whitespace characters. -/
def pyStrip (l : List Char) : List Char :=
  ((l.dropWhile pyIsSpace).reverse.dropWhile pyIsSpace).reverse

/-- Models the Python call text.split(chr(10)): the list of chunks between
newline characters.  An empty text gives one empty chunk, as in Python. -/
def splitOnNl : List Char → List (List Char)
  | [] => [[]]
  | c :: cs =>
    if c = '\n' then [] :: splitOnNl cs
    else
      match splitOnNl cs with
      | [] => [[c]]
      | l :: ls => (c :: l) :: ls

/-- Models the Python expression line.split(chr(46), 1)[1]: the suffix after
the first full stop.  Both call sites guard the expression with a test that a
full stop occurs among the first three characters, so the missing-separator
case (an IndexError in Python) is unreachable; it is modelled as the empty
list. -/
def afterFirstDot : List Char → List Char
  | [] => []
  | a :: as => if a = '.' then as else afterFirstDot as

/-- Models the Python guard line[0].isdigit() and chr(46) in line[:3], used by
both line-cleanup loops to detect leading numbering. -/
def startsDigitDot (l : List Char) : Bool :=
  (match l.head? with
   | some c => pyIsDigit c
   | none => false)
    && (l.take 3).contains '.'

/-- The shape shared by the two line-processing loops of the source (in
parse_recommendations and in generate_ai_password_suggestions): iterate over
the lines, and append the processed form of each accepted line to the
accumulator list, preserving order. -/
def appendLoop (f : List Char → Option (List Char)) :
    List (List Char) → List (List Char) → List (List Char)
  | [], acc => acc
  | l :: ls, acc =>
    match f l with
    | some r => appendLoop f ls (acc ++ [r])
    | none => appendLoop f ls acc

/-- The append loop is filterMap: it keeps the accepted lines in their
original order. -/
theorem appendLoop_eq (f : List Char → Option (List Char)) :
    ∀ (ls : List (List Char)) (acc : List (List Char)),
      appendLoop f ls acc = acc ++ ls.filterMap f := by
  intro ls
  induction ls with
  | nil => intro acc; simp [appendLoop]
  | cons l ls ih =>
    intro acc
    cases h : f l with
    | none => simp [appendLoop, h, ih]
    | some r => simp [appendLoop, h, ih]

/-- The body of the per-line processing in parse_recommendations: strip the
line; skip it when it is empty or starts with a hash; strip a leading
numbering such as "1." when the first character is a digit and a full stop
occurs in the first three characters; strip a leading dash or bullet; keep
the line when it is still non-empty. -/
def processRecLine (line : List Char) : Option (List Char) :=
  let l := pyStrip line
  if l ≠ [] ∧ l.head? ≠ some '#' then
    let l2 := if startsDigitDot l then pyStrip (afterFirstDot l) else l
    let l3 := if l2.head? = some '-' ∨ l2.head? = some '•'
      then pyStrip l2.tail else l2
    if l3 ≠ [] then some l3 else none
  else none

/-- Embedding of parse_recommendations(recommendations_text): split the text
on newlines, process each line in order through the cleanup loop, and return
the first 7 accepted lines. -/
def parse_recommendations (recommendations_text : List Char) : List (List Char) :=
  (appendLoop processRecLine (splitOnNl recommendations_text) []).take 7

/-- Embedding of get_default_recommendations(): the fixed static list of 7
recommendation strings returned when the external service is unavailable. -/
def get_default_recommendations : List (List Char) :=
  [ "Increase password length to 16+ characters".toList,
    "Mix uppercase, lowercase, numbers, and special characters".toList,
    "Avoid common words or predictable sequences".toList,
    "Avoid using personal information (names, birthdates)".toList,
    "Use a passphrase with random words for better memorability".toList,
    "Avoid keyboard patterns (qwerty, asdfgh, etc.)".toList,
    "Consider using a password manager to generate and store strong passwords".toList ]

/-- Embedding of generate_recommendations(password).  The ambient credential
openai.api_key and the outcome of the external chat-completion call are
explicit parameters: svc is the text the service returns, or the error the
call raises.  The source returns the default list when the key is empty,
parses the service text when the call succeeds, and catches any exception and
returns the default list otherwise; the total return type (no Except) models
that the function never raises to its caller. -/
def generate_recommendations (password : List Char) (apiKey : String)
    (svc : Except PyErr (List Char)) : List (List Char) :=
  if apiKey = "" then get_default_recommendations
  else
    match svc with
    | Except.ok text => parse_recommendations text
    | Except.error _ => get_default_recommendations

/-- The constant string.ascii_uppercase of the Python standard library. -/
def ascii_uppercase : List Char := "ABCDEFGHIJKLMNOPQRSTUVWXYZ".toList

/-- The constant string.ascii_lowercase of the Python standard library. -/
def ascii_lowercase : List Char := "abcdefghijklmnopqrstuvwxyz".toList

/-- The constant string.ascii_letters of the Python standard library:
lowercase followed by uppercase. -/
def ascii_letters : List Char := ascii_lowercase ++ ascii_uppercase

/-- The constant string.digits of the Python standard library. -/
def string_digits : List Char := "0123456789".toList

/-- One outcome of the random choices a single construction attempt of
generate_strong_password consumes: the indices the four random.choice seed
calls pick, the indices the pool fill picks at each position, and the
permutation random.shuffle applies to the buffer.  Quantifying over all
outcomes (with the shuffle constrained to be a permutation) quantifies over
everything the randomness source can do. -/
structure GenOutcome where
  upIdx : Nat
  lowIdx : Nat
  digIdx : Nat
  specIdx : Nat
  fillIdx : Nat → Nat
  shuffle : List Char → List Char

/-- Models random.choice(seq) for a non-empty sequence, with the random draw
made explicit as an index (reduced modulo the length, so that every index
denotes an element and every element is denoted).  The source only applies it
to non-empty constant strings; the empty case (an IndexError in Python) is
unreachable and modelled by an arbitrary character. -/
def randomChoice (l : List Char) (i : Nat) : Char :=
  if h : l = [] then ' '
  else l.get ⟨i % l.length, Nat.mod_lt _ (List.length_pos.mpr h)⟩

/-- The seed buffer chars_needed of generate_strong_password: one uppercase
letter, one lowercase letter, then one digit if use_numbers, then one special
character if use_special. -/
def chars_needed (use_special use_numbers : Bool) (o : GenOutcome) : List Char :=
  [randomChoice ascii_uppercase o.upIdx, randomChoice ascii_lowercase o.lowIdx]
    ++ (if use_numbers then [randomChoice string_digits o.digIdx] else [])
    ++ (if use_special then [randomChoice specialChars o.specIdx] else [])

/-- The fill pool char_pool of generate_strong_password: ASCII letters, plus
digits if use_numbers, plus the special charset if use_special. -/
def char_pool (use_special use_numbers : Bool) : List Char :=
  ascii_letters
    ++ (if use_numbers then string_digits else [])
    ++ (if use_special then specialChars else [])

/-- The length clamp at the top of generate_strong_password: lengths below 12
become 12 and lengths above 32 become 32. -/
def clampLength (length : Int) : Nat :=
  if length < 12 then 12 else if length > 32 then 32 else length.toNat

/-- The construction part of generate_strong_password(length, use_special,
use_numbers), up to the shuffle: clamp the length, seed the mandatory
characters, fill the remaining positions with pool choices, and shuffle. -/
def generate_attempt (length : Int) (use_special use_numbers : Bool)
    (o : GenOutcome) : List Char :=
  let L := clampLength length
  let needed := chars_needed use_special use_numbers o
  let pool := char_pool use_special use_numbers
  let filled := needed
    ++ (List.range (L - needed.length)).map (fun i => randomChoice pool (o.fillIdx i))
  o.shuffle filled

/-- The message of the TypeError the self-check call raises. -/
def keywordErrMsg : String :=
  "validate_password_meets_security_rules() got an unexpected keyword argument use_special"

/-- Embedding of generate_strong_password(length, use_special, use_numbers).
After constructing the shuffled buffer, the source invokes the validator as
validate_password_meets_security_rules(password, use_special=use_special,
require_numbers=use_numbers).  The callee has no parameter named use_special
(its flag is named require_special), so the Python interpreter raises
TypeError at this call, before any result can be inspected; the subsequent
self-check branch and the recursive retry are therefore unreachable, and the
function never returns a password. -/
def generate_strong_password (length : Int) (use_special use_numbers : Bool)
    (o : GenOutcome) : Except PyErr (List Char) :=
  let _password := generate_attempt length use_special use_numbers o
  Except.error (PyErr.typeError keywordErrMsg)

/-- A list comprehension or padding loop that invokes
generate_strong_password(length) (with the default flags, both true) the
given number of times, each call consuming a fresh outcome from the stream
os. -/
def gen_list (length : Int) (os : Nat → GenOutcome) (count : Nat) :
    Except PyErr (List (List Char)) :=
  (List.range count).mapM (fun i => generate_strong_password length true true (os i))

/-- The body of the per-line processing in generate_ai_password_suggestions:
strip the line; skip it unless it is non-empty and at least 12 characters
long; strip a leading numbering and a leading dash or bullet as in
parse_recommendations; accept the line when it passes the validator with
min_length = length - 1 (the other parameters at their defaults) and its own
length is at most length + 2. -/
def processSuggestionLine (length : Int) (line : List Char) : Option (List Char) :=
  let l := pyStrip line
  if l ≠ [] ∧ 12 ≤ l.length then
    let l2 := if startsDigitDot l then pyStrip (afterFirstDot l) else l
    let l3 := if l2.head? = some '-' ∨ l2.head? = some '•'
      then pyStrip l2.tail else l2
    if (validate_password_meets_security_rules l3 (length - 1) true true true true).1 = true
        ∧ (l3.length : Int) ≤ length + 2
      then some l3 else none
  else none

/-- Embedding of generate_ai_password_suggestions(count, length).  As for
generate_recommendations, the ambient credential and the outcome of the
external call are explicit parameters, and os supplies one random outcome per
generate_strong_password invocation.  When the key is empty the source builds
count passwords by list comprehension.  Otherwise, inside a try block, it
collects the accepted lines of the service text, pads with generated
passwords while fewer than count, and returns the first count; any exception
raised inside the try block (including by the padding calls) is caught, and
the handler again builds count passwords by list comprehension — an
exception raised there propagates to the caller. -/
def generate_ai_password_suggestions (count : Nat) (length : Int)
    (apiKey : String) (svc : Except PyErr (List Char)) (os : Nat → GenOutcome) :
    Except PyErr (List (List Char)) :=
  if apiKey = "" then gen_list length os count
  else
    let body : Except PyErr (List (List Char)) := do
      let text ← svc
      let passwords := appendLoop (processSuggestionLine length)
        (splitOnNl (pyStrip text)) []
      let padded ←
        if passwords.length < count then do
          let extra ← gen_list length os (count - passwords.length)
          pure (passwords ++ extra)
        else pure passwords
      pure (padded.take count)
    match body with
    | Except.ok r => Except.ok r
    | Except.error _ => gen_list length os count

/-- C1: for every string and every policy, the validator returns is_valid
true exactly when the string satisfies every enabled rule (length at least
min_length, and one character of each class whose require flag is enabled),
and equivalently exactly when the returned violations list is empty. -/
theorem c1_valid_iff_rules_iff_no_violations (password : List Char)
    (min_length : Int) (ru rl rn rs : Bool) :
    (((validate_password_meets_security_rules password min_length ru rl rn rs).1 = true)
      ↔ (min_length ≤ (password.length : Int)
        ∧ (ru = true → password.any pyIsUpper = true)
        ∧ (rl = true → password.any pyIsLower = true)
        ∧ (rn = true → password.any pyIsDigit = true)
        ∧ (rs = true → password.any (fun c => specialChars.contains c) = true)))
    ∧ (((validate_password_meets_security_rules password min_length ru rl rn rs).1 = true)
      ↔ (validate_password_meets_security_rules password min_length ru rl rn rs).2 = []) :=
  ⟨validate_valid_iff password min_length ru rl rn rs,
   validate_valid_eq_errors_empty password min_length ru rl rn rs⟩

/-- C4: the validator evaluates all five checks unconditionally, so the
violations list is the in-order concatenation of one entry per failed
applicable rule, in the fixed order length, uppercase, lowercase, digit,
special, with each class check contributing only when its require flag is
true. -/
theorem c4_violations_in_order_no_short_circuit (password : List Char)
    (min_length : Int) (ru rl rn rs : Bool) :
    (validate_password_meets_security_rules password min_length ru rl rn rs).2 =
      (if (password.length : Int) < min_length then [msgLength min_length] else [])
      ++ (if ru && !(password.any pyIsUpper) then [msgUpper] else [])
      ++ (if rl && !(password.any pyIsLower) then [msgLower] else [])
      ++ (if rn && !(password.any pyIsDigit) then [msgNumber] else [])
      ++ (if rs && !(password.any (fun c => specialChars.contains c))
          then [msgSpecial] else []) :=
  validate_errors_eq password min_length ru rl rn rs

/-- C6: validating the string abc under the default policy (min_length 12,
all four require flags true) yields is_valid false with exactly the four
violations length, uppercase, number, special, in that order; the lowercase
check passes and contributes nothing. -/
theorem c6_validate_abc_default_policy :
    validate_password_meets_security_rules "abc".toList 12 true true true true
      = (false, [msgLength 12, msgUpper, msgNumber, msgSpecial]) := by
  rfl

/-- C7: when the external service is unconfigured (empty key) or its call
raises any error, generate_recommendations returns the fixed static fallback
list of exactly 7 recommendation strings; its total return type reflects that
it never propagates the raw service error to its caller. -/
theorem c7_recommender_falls_back_to_defaults (password : List Char)
    (apiKey : String) (svc : Except PyErr (List Char))
    (h : apiKey = "" ∨ ∃ e, svc = Except.error e) :
    generate_recommendations password apiKey svc = get_default_recommendations
      ∧ get_default_recommendations.length = 7 := by
  constructor
  · rcases h with h | ⟨e, h⟩
    · simp [generate_recommendations, h]
    · subst h
      by_cases ha : apiKey = "" <;> simp [generate_recommendations, ha]
  · rfl

/-- Witness for C7 at a concrete unconfigured input. -/
theorem c7_witness :
    generate_recommendations [] "" (Except.ok []) = get_default_recommendations
      ∧ get_default_recommendations.length = 7 :=
  c7_recommender_falls_back_to_defaults [] "" (Except.ok []) (Or.inl rfl)

/-- C9: parse_recommendations returns the first at most 7 accepted lines, in
the order the lines appear in the service output (it equals the in-order
filterMap of the line processor, truncated to 7). -/
theorem c9_parse_at_most_7_in_order (text : List Char) :
    parse_recommendations text
        = ((splitOnNl text).filterMap processRecLine).take 7
      ∧ (parse_recommendations text).length ≤ 7 := by
  constructor
  · unfold parse_recommendations
    rw [appendLoop_eq]
    simp
  · unfold parse_recommendations
    exact List.length_take_le 7 _

/-- A choice from a non-empty sequence is an element of it. -/
theorem randomChoice_mem (l : List Char) (i : Nat) (h : l ≠ []) :
    randomChoice l i ∈ l := by
  unfold randomChoice
  rw [dif_neg h]
  exact List.get_mem l _ _

/-- Every ASCII uppercase letter satisfies the Python uppercase test. -/
theorem upper_isUpper : ∀ c ∈ ascii_uppercase, pyIsUpper c = true := by decide

/-- Every ASCII lowercase letter satisfies the Python lowercase test. -/
theorem lower_isLower : ∀ c ∈ ascii_lowercase, pyIsLower c = true := by decide

/-- Every ASCII digit satisfies the Python digit test. -/
theorem digits_isDigit : ∀ c ∈ string_digits, pyIsDigit c = true := by decide

/-- Every special character passes the special membership test of the
validator. -/
theorem special_contains_self : ∀ c ∈ specialChars, specialChars.contains c = true := by
  decide

/-- ASCII uppercase letters belong to string.ascii_letters. -/
theorem upper_subset_letters : ∀ c ∈ ascii_uppercase, c ∈ ascii_letters := by decide

/-- ASCII lowercase letters belong to string.ascii_letters. -/
theorem lower_subset_letters : ∀ c ∈ ascii_lowercase, c ∈ ascii_letters := by decide

/-- No ASCII letter is a digit under the Python digit test. -/
theorem letters_no_digit : ∀ c ∈ ascii_letters, pyIsDigit c = false := by decide

/-- No special character is a digit under the Python digit test. -/
theorem special_no_digit : ∀ c ∈ specialChars, pyIsDigit c = false := by decide

/-- No ASCII letter belongs to the special charset. -/
theorem letters_no_special : ∀ c ∈ ascii_letters, specialChars.contains c = false := by
  decide

/-- No ASCII digit belongs to the special charset. -/
theorem digits_no_special : ∀ c ∈ string_digits, specialChars.contains c = false := by
  decide

/-- The seed buffer holds at most 4 characters. -/
theorem chars_needed_length_le (us un : Bool) (o : GenOutcome) :
    (chars_needed us un o).length ≤ 4 := by
  cases us <;> cases un <;> simp [chars_needed]

/-- The clamped length is at least 12. -/
theorem clampLength_ge (length : Int) : 12 ≤ clampLength length := by
  unfold clampLength
  split_ifs <;> omega

/-- The clamped length is at most 32. -/
theorem clampLength_le (length : Int) : clampLength length ≤ 32 := by
  unfold clampLength
  split_ifs <;> omega

/-- For every outcome whose shuffle is a permutation, the constructed buffer
has exactly the clamped length. -/
theorem generate_attempt_length (length : Int) (us un : Bool) (o : GenOutcome)
    (hperm : ∀ l, (o.shuffle l).Perm l) :
    (generate_attempt length us un o).length = clampLength length := by
  simp only [generate_attempt]
  rw [(hperm _).length_eq]
  simp only [List.length_append, List.length_map, List.length_range]
  have h1 := chars_needed_length_le us un o
  have h2 := clampLength_ge length
  omega

/-- Seed characters survive into the shuffled buffer. -/
theorem mem_attempt_of_mem_needed (length : Int) (us un : Bool) (o : GenOutcome)
    (hperm : ∀ l, (o.shuffle l).Perm l) (c : Char)
    (hc : c ∈ chars_needed us un o) :
    c ∈ generate_attempt length us un o := by
  simp only [generate_attempt]
  exact ((hperm _).mem_iff).mpr (List.mem_append_left _ hc)

/-- The fill pool is never empty. -/
theorem char_pool_ne_nil (us un : Bool) : char_pool us un ≠ [] := by
  cases us <;> cases un <;> decide

/-- Every element of the fill pool is a letter, a digit under use_numbers, or
a special character under use_special. -/
theorem mem_char_pool_cases (us un : Bool) (c : Char) (h : c ∈ char_pool us un) :
    c ∈ ascii_letters ∨ (un = true ∧ c ∈ string_digits)
      ∨ (us = true ∧ c ∈ specialChars) := by
  cases us <;> cases un <;> simp [char_pool, List.mem_append] at h <;> tauto

/-- Every seed character is a letter, a digit under use_numbers, or a special
character under use_special. -/
theorem mem_chars_needed_cases (us un : Bool) (o : GenOutcome) (c : Char)
    (h : c ∈ chars_needed us un o) :
    c ∈ ascii_letters ∨ (un = true ∧ c ∈ string_digits)
      ∨ (us = true ∧ c ∈ specialChars) := by
  have hu : randomChoice ascii_uppercase o.upIdx ∈ ascii_letters :=
    upper_subset_letters _ (randomChoice_mem _ _ (by decide))
  have hl : randomChoice ascii_lowercase o.lowIdx ∈ ascii_letters :=
    lower_subset_letters _ (randomChoice_mem _ _ (by decide))
  unfold chars_needed at h
  rcases List.mem_append.mp h with h12 | hS
  · rcases List.mem_append.mp h12 with hUL | hD
    · rcases List.mem_cons.mp hUL with rfl | hUL2
      · exact Or.inl hu
      · rcases List.mem_cons.mp hUL2 with rfl | h0
        · exact Or.inl hl
        · exact absurd h0 (List.not_mem_nil c)
    · by_cases hun : un = true
      · rw [if_pos hun] at hD
        rcases List.mem_singleton.mp hD with rfl
        exact Or.inr (Or.inl ⟨hun, randomChoice_mem _ _ (by decide)⟩)
      · rw [if_neg hun] at hD
        exact absurd hD (List.not_mem_nil c)
  · by_cases hus : us = true
    · rw [if_pos hus] at hS
      rcases List.mem_singleton.mp hS with rfl
      exact Or.inr (Or.inr ⟨hus, randomChoice_mem _ _ (by decide)⟩)
    · rw [if_neg hus] at hS
      exact absurd hS (List.not_mem_nil c)

/-- Every character of the shuffled buffer is a letter, a digit under
use_numbers, or a special character under use_special. -/
theorem mem_attempt_cases (length : Int) (us un : Bool) (o : GenOutcome)
    (hperm : ∀ l, (o.shuffle l).Perm l) (c : Char)
    (hc : c ∈ generate_attempt length us un o) :
    c ∈ ascii_letters ∨ (un = true ∧ c ∈ string_digits)
      ∨ (us = true ∧ c ∈ specialChars) := by
  simp only [generate_attempt] at hc
  rcases List.mem_append.mp (((hperm _).mem_iff).mp hc) with h | h
  · exact mem_chars_needed_cases us un o c h
  · rcases List.mem_map.mp h with ⟨i, _, rfl⟩
    exact mem_char_pool_cases us un _ (randomChoice_mem _ _ (char_pool_ne_nil us un))

/-- For every outcome whose shuffle is a permutation, the constructed buffer
passes the validator under min_length at most the clamped length, requiring
uppercase and lowercase always, digits when use_numbers, specials when
use_special — the policy family covering both the source self-check
(min_length 12) and the matching policy of the specification (min_length
equal to the clamped length). -/
theorem generate_attempt_valid (length : Int) (us un : Bool) (o : GenOutcome)
    (hperm : ∀ l, (o.shuffle l).Perm l) (m : Int)
    (hm : m ≤ (clampLength length : Int)) :
    (validate_password_meets_security_rules (generate_attempt length us un o)
      m true true un us).1 = true := by
  rw [validate_valid_iff]
  refine ⟨?_, ?_, ?_, ?_, ?_⟩
  · rw [generate_attempt_length length us un o hperm]
    exact hm
  · intro _
    rw [List.any_eq_true]
    exact ⟨randomChoice ascii_uppercase o.upIdx,
      mem_attempt_of_mem_needed length us un o hperm _ (by simp [chars_needed]),
      upper_isUpper _ (randomChoice_mem _ _ (by decide))⟩
  · intro _
    rw [List.any_eq_true]
    exact ⟨randomChoice ascii_lowercase o.lowIdx,
      mem_attempt_of_mem_needed length us un o hperm _ (by simp [chars_needed]),
      lower_isLower _ (randomChoice_mem _ _ (by decide))⟩
  · intro hun
    rw [List.any_eq_true]
    exact ⟨randomChoice string_digits o.digIdx,
      mem_attempt_of_mem_needed length us un o hperm _ (by simp [chars_needed, hun]),
      digits_isDigit _ (randomChoice_mem _ _ (by decide))⟩
  · intro hus
    rw [List.any_eq_true]
    exact ⟨randomChoice specialChars o.specIdx,
      mem_attempt_of_mem_needed length us un o hperm _ (by simp [chars_needed, hus]),
      special_contains_self _ (randomChoice_mem _ _ (by decide))⟩

/-- A fixed concrete outcome (identity shuffle, all choices at index 0), used
by the witnesses. -/
def o0 : GenOutcome := ⟨0, 0, 0, 0, fun _ => 0, id⟩

/-- C2: for every length in 1..100, both flags and every random outcome, the
buffer generate_strong_password constructs has exactly the clamped length and
passes the validator under the matching policy — but the function itself
never returns it: the self-check call names the keyword use_special, which
the validator does not accept, so every call raises TypeError. -/
theorem c2_generated_clamped_and_valid_but_raises (length : Int)
    (us un : Bool) (o : GenOutcome) (h1 : 1 ≤ length) (h2 : length ≤ 100)
    (hperm : ∀ l, (o.shuffle l).Perm l) :
    (generate_attempt length us un o).length = clampLength length
    ∧ (validate_password_meets_security_rules (generate_attempt length us un o)
        (clampLength length : Int) true true un us).1 = true
    ∧ generate_strong_password length us un o
        = Except.error (PyErr.typeError keywordErrMsg) :=
  ⟨generate_attempt_length length us un o hperm,
   generate_attempt_valid length us un o hperm _ (le_refl _),
   rfl⟩

/-- Witness for C2 at length 16, both flags true, the concrete outcome o0. -/
theorem c2_witness :
    (generate_attempt 16 true true o0).length = clampLength 16
    ∧ (validate_password_meets_security_rules (generate_attempt 16 true true o0)
        (clampLength 16 : Int) true true true true).1 = true
    ∧ generate_strong_password 16 true true o0
        = Except.error (PyErr.typeError keywordErrMsg) :=
  c2_generated_clamped_and_valid_but_raises 16 true true o0 (by decide) (by decide)
    (fun l => List.Perm.refl l)

/-- C5: for every input and every random outcome, the constructed buffer
passes the self-check the source intends to run (the validator at the default
min_length 12, uppercase and lowercase required, digits iff use_numbers,
specials iff use_special), so the recursive retry branch could never be
taken; but in the code as written the self-check call itself raises TypeError
(unexpected keyword use_special) on every call, so the check never completes
and the function never returns. -/
theorem c5_self_check_would_pass_but_call_raises (length : Int)
    (us un : Bool) (o : GenOutcome) (hperm : ∀ l, (o.shuffle l).Perm l) :
    (validate_password_meets_security_rules (generate_attempt length us un o)
        12 true true un us).1 = true
    ∧ generate_strong_password length us un o
        = Except.error (PyErr.typeError keywordErrMsg) :=
  ⟨generate_attempt_valid length us un o hperm 12
      (by exact_mod_cast clampLength_ge length),
   rfl⟩

/-- Witness for C5 at length 16, both flags true, the concrete outcome o0. -/
theorem c5_witness :
    (validate_password_meets_security_rules (generate_attempt 16 true true o0)
        12 true true true true).1 = true
    ∧ generate_strong_password 16 true true o0
        = Except.error (PyErr.typeError keywordErrMsg) :=
  c5_self_check_would_pass_but_call_raises 16 true true o0 (fun l => List.Perm.refl l)

/-- C10: every character of the buffer generate_strong_password constructs is
drawn from the allowed pool of the call — an ASCII letter, a digit only when
use_numbers, a member of the special charset only when use_special; in
particular without use_numbers the buffer holds no digit and without
use_special no special character.  The function itself never returns the
buffer: every call raises TypeError at the mis-keyworded self-check. -/
theorem c10_characters_drawn_from_allowed_pool (length : Int)
    (us un : Bool) (o : GenOutcome) (hperm : ∀ l, (o.shuffle l).Perm l) :
    (∀ c ∈ generate_attempt length us un o,
        c ∈ ascii_letters ∨ (un = true ∧ c ∈ string_digits)
          ∨ (us = true ∧ c ∈ specialChars))
    ∧ (un = false → ∀ c ∈ generate_attempt length us un o, pyIsDigit c = false)
    ∧ (us = false → ∀ c ∈ generate_attempt length us un o,
        specialChars.contains c = false)
    ∧ generate_strong_password length us un o
        = Except.error (PyErr.typeError keywordErrMsg) := by
  refine ⟨fun c hc => mem_attempt_cases length us un o hperm c hc, ?_, ?_, rfl⟩
  · intro hun c hc
    rcases mem_attempt_cases length us un o hperm c hc with h | ⟨h, _⟩ | ⟨_, h⟩
    · exact letters_no_digit c h
    · rw [hun] at h
      exact absurd h (by decide)
    · exact special_no_digit c h
  · intro hus c hc
    rcases mem_attempt_cases length us un o hperm c hc with h | ⟨_, h⟩ | ⟨h, _⟩
    · exact letters_no_special c h
    · exact digits_no_special c h
    · rw [hus] at h
      exact absurd h (by decide)

/-- Witness for C10 at length 16, use_special true, use_numbers false, the
concrete outcome o0. -/
theorem c10_witness :
    (∀ c ∈ generate_attempt 16 true false o0,
        c ∈ ascii_letters ∨ (false = true ∧ c ∈ string_digits)
          ∨ (true = true ∧ c ∈ specialChars))
    ∧ (false = false → ∀ c ∈ generate_attempt 16 true false o0, pyIsDigit c = false)
    ∧ (true = false → ∀ c ∈ generate_attempt 16 true false o0,
        specialChars.contains c = false)
    ∧ generate_strong_password 16 true false o0
        = Except.error (PyErr.typeError keywordErrMsg) :=
  c10_characters_drawn_from_allowed_pool 16 true false o0 (fun l => List.Perm.refl l)

/-- C8: on the unconfigured-key path, generate_ai_password_suggestions does
not return count items: the list comprehension invokes
generate_strong_password, whose mis-keyworded self-check call raises
TypeError on every invocation, and the exception propagates to the caller
whenever count is at least 1.  (By the same mechanism the error path and any
service path that needs padding raise as well.) -/
theorem c8_unconfigured_path_raises (count : Nat) (length : Int)
    (svc : Except PyErr (List Char)) (os : Nat → GenOutcome) (h : 1 ≤ count) :
    generate_ai_password_suggestions count length "" svc os
      = Except.error (PyErr.typeError keywordErrMsg) := by
  obtain ⟨n, rfl⟩ : ∃ n, count = n + 1 := ⟨count - 1, by omega⟩
  unfold generate_ai_password_suggestions
  rw [if_pos rfl]
  unfold gen_list
  rw [List.range_succ_eq_map, List.mapM_cons]
  rfl

/-- Witness for C8 at the default arguments count 3 and length 16. -/
theorem c8_witness :
    generate_ai_password_suggestions 3 16 "" (Except.ok []) (fun _ => o0)
      = Except.error (PyErr.typeError keywordErrMsg) :=
  c8_unconfigured_path_raises 3 16 (Except.ok []) (fun _ => o0) (by decide)

/-- On ASCII characters the Python uppercase test coincides with the ASCII
class A-Z. -/
theorem pyIsUpper_ascii (c : Char) (h : c.toNat ≤ 127) :
    pyIsUpper c = isAsciiUpper c := by
  rw [Bool.eq_iff_iff]
  simp only [pyIsUpper, isAsciiUpper, Bool.or_eq_true, Bool.and_eq_true,
    decide_eq_true_eq]
  omega

/-- On ASCII characters the Python lowercase test coincides with the ASCII
class a-z. -/
theorem pyIsLower_ascii (c : Char) (h : c.toNat ≤ 127) :
    pyIsLower c = isAsciiLower c := by
  rw [Bool.eq_iff_iff]
  simp only [pyIsLower, isAsciiLower, Bool.or_eq_true, Bool.and_eq_true,
    decide_eq_true_eq, beq_iff_eq]
  omega

/-- On ASCII characters the Python digit test coincides with the ASCII class
0-9. -/
theorem pyIsDigit_ascii (c : Char) (h : c.toNat ≤ 127) :
    pyIsDigit c = isAsciiDigit c := by
  rw [Bool.eq_iff_iff]
  simp only [pyIsDigit, isAsciiDigit, Bool.or_eq_true, Bool.and_eq_true,
    decide_eq_true_eq, beq_iff_eq]
  omega

/-- An any-test only depends on the values of its predicate on the list. -/
theorem any_congr_of_mem {p q : Char → Bool} :
    ∀ (l : List Char), (∀ c ∈ l, p c = q c) → l.any p = l.any q := by
  intro l
  induction l with
  | nil => intro _; rfl
  | cons a as ih =>
    intro h
    simp only [List.any_cons, h a (List.mem_cons_self a as),
      ih (fun c hc => h c (List.mem_cons_of_mem a hc))]

/-- No ASCII alphanumeric character belongs to the special charset. -/
theorem alnum_not_special (c : Char) (h : isAsciiAlnum c = true) :
    specialChars.contains c = false := by
  cases hc : specialChars.contains c
  · rfl
  · exfalso
    have hmem : c ∈ specialChars := by simpa using hc
    have := (by decide : ∀ d ∈ specialChars, isAsciiAlnum d = false) c hmem
    rw [h] at this
    exact Bool.true_eq_false_eq_False this

/-- C3 counterexample: the Python uppercase test used by the validator is not
the ASCII class A-Z.  The Latin-1 capital A grave (code 192) satisfies it, so
a password containing no character of A-Z passes a policy that requires an
uppercase letter, with no violations — refuting the claim that the membership
tests recognise exactly the standard ASCII classes. -/
theorem c3_counterexample :
    pyIsUpper 'À' = true ∧ isAsciiUpper 'À' = false
    ∧ validate_password_meets_security_rules ('À' :: List.replicate 11 'a')
        12 true false false false = (true, [])
    ∧ (∀ c ∈ ('À' :: List.replicate 11 'a'), isAsciiUpper c = false) := by
  decide

/-- C3 as amended: the class membership tests are the Python Unicode tests,
which coincide with the ASCII classes A-Z, a-z, 0-9 on ASCII strings; the
special-character test is exact membership in the fixed charset, so a string
made of the euro sign and ASCII alphanumerics never satisfies the special
rule (the special violation is always reported when the rule is enabled), and
neither the euro sign nor the space counts as special. -/
theorem c3_classes_ascii_on_ascii_special_exact :
    (∀ p : List Char, (∀ c ∈ p, c.toNat ≤ 127) →
      p.any pyIsUpper = p.any isAsciiUpper
      ∧ p.any pyIsLower = p.any isAsciiLower
      ∧ p.any pyIsDigit = p.any isAsciiDigit)
    ∧ (∀ q : List Char, (∀ c ∈ q, c = '€' ∨ isAsciiAlnum c = true) →
        ∀ (m : Int) (ru rl rn : Bool),
          msgSpecial ∈ (validate_password_meets_security_rules q m ru rl rn true).2)
    ∧ specialChars.contains '€' = false
    ∧ specialChars.contains ' ' = false := by
  refine ⟨?_, ?_, by decide, by decide⟩
  · intro p hp
    exact ⟨any_congr_of_mem p (fun c hc => pyIsUpper_ascii c (hp c hc)),
           any_congr_of_mem p (fun c hc => pyIsLower_ascii c (hp c hc)),
           any_congr_of_mem p (fun c hc => pyIsDigit_ascii c (hp c hc))⟩
  · intro q hq m ru rl rn
    have hany : q.any (fun c => specialChars.contains c) = false := by
      rw [List.any_eq_false]
      intro c hc
      rcases hq c hc with rfl | h
      · simp only [Bool.not_eq_true]
        decide
      · simp only [Bool.not_eq_true]
        exact alnum_not_special c h
    rw [validate_errors_eq]
    apply List.mem_append.mpr
    right
    rw [if_pos (show (true && !(q.any (fun c => specialChars.contains c))) = true
      by simp only [Bool.true_and, Bool.not_eq_true', hany])]
    exact List.mem_singleton.mpr rfl

/-- Witness for C3 as amended, at concrete ASCII and euro-alphanumeric
strings. -/
theorem c3_witness :
    (['A', 'b', '3'].any pyIsUpper = ['A', 'b', '3'].any isAsciiUpper
     ∧ ['A', 'b', '3'].any pyIsLower = ['A', 'b', '3'].any isAsciiLower
     ∧ ['A', 'b', '3'].any pyIsDigit = ['A', 'b', '3'].any isAsciiDigit)
    ∧ msgSpecial ∈ (validate_password_meets_security_rules ['€', 'a', '1', 'B']
        12 true true true true).2 :=
  ⟨c3_classes_ascii_on_ascii_special_exact.1 ['A', 'b', '3'] (by decide),
   c3_classes_ascii_on_ascii_special_exact.2.1 ['€', 'a', '1', 'B'] (by decide)
     12 true true true⟩
